import Mathlib

/-!
Verification development for the event-multiplexing and frame-budgeted render
loop of a terminal messaging client (single source file `src/main.rs`).

The Rust source is shallowly embedded:
 * durations are natural numbers of nanoseconds (resp. seconds for the
   reconnector backoff), mirroring `std::time::Duration` arithmetic;
 * the event type `Event` mirrors `app::Event` with opaque payloads;
 * the per-iteration frame-limiter decision (main.rs lines 159-181) is the
   pure function `frameLimiterStep`;
 * the reconnector task (main.rs lines 116-150) is sequentialised into the
   trace function `reconnectorTrace`, driven by a script of per-iteration
   network outcomes;
 * the dispatch loop body (main.rs lines 159-193) is the interpreter
   `runLoop`, driven by a script of per-iteration inputs (elapsed time,
   draw outcome, channel receive outcome), and the whole of
   `run_single_threaded` is `runSingleThreaded`, which additionally records
   the terminal lifecycle operations performed, in order;
 * the deferred-redraw timer tasks and the shared `is_render_spawned` flag
   are modelled by the step relation `SchedStep` on `SchedState`.
-/

namespace Gurk

/-- An anyhow-style error: a chain of context strings, outermost first. -/
abbrev ErrChain := List String

/-- The event type of `app::Event` (src/main.rs uses variants
`Input`, `Resize`, `Click`, `Message`, `Redraw`, `Quit`); payloads of the
external collaborator types (key event, mouse button, decoded message) are
opaque and modelled as naturals. -/
inductive Event where
  | Input (key : Nat)
  | Resize (cols rows : Nat)
  | Click (button : Nat)
  | Message (payload : Nat)
  | Redraw
  | Quit (err : Option ErrChain)
deriving DecidableEq

/-- The constant `TARGET_FPS: u64 = 144` (main.rs line 30). -/
def TARGET_FPS : Nat := 144

/-- The constant `FRAME_BUDGET = Duration::from_millis(1000 / TARGET_FPS)`
(main.rs line 31). `1000 / TARGET_FPS` is u64 (integer) division. -/
def FRAME_BUDGET_ms : Nat := 1000 / TARGET_FPS

/-- The frame budget in nanoseconds: `Duration::from_millis` holds whole
milliseconds, each 1000000 ns. -/
def FRAME_BUDGET_ns : Nat := FRAME_BUDGET_ms * 1000000

/-- The operation `Duration::checked_sub`: `some (a - b)` when `b ≤ a`, otherwise `none`. -/
def checkedSub (a b : Nat) : Option Nat :=
  if b ≤ a then some (a - b) else none

/-- What the frame-limiter prologue of an iteration decides to do. -/
inductive RenderAction where
  | render
  | spawnTimer (sleep_ns : Nat)
  | noop
deriving DecidableEq

/-- Result of one frame-limiter prologue: the action taken, whether
`last_render_at` is reset to now, and the new value of the
`is_render_spawned` flag as left by the dispatch loop itself. -/
structure LimiterResult where
  action : RenderAction
  resetsTimestamp : Bool
  flag : Bool
deriving DecidableEq

/-- The render prologue of one dispatch-loop iteration (main.rs lines
159-181): compute `FRAME_BUDGET.checked_sub(last_render_at.elapsed())`; on
`Some budget`, if the `is_render_spawned` flag is unset, set it and spawn a
timer task sleeping `budget` (which will emit `Redraw` and clear the flag),
else do nothing; on `None`, draw immediately and reset `last_render_at`. -/
def frameLimiterStep (elapsed_ns : Nat) (isRenderSpawned : Bool) : LimiterResult :=
  match checkedSub FRAME_BUDGET_ns elapsed_ns with
  | some budget =>
    if !isRenderSpawned then
      { action := RenderAction.spawnTimer budget, resetsTimestamp := false, flag := true }
    else
      { action := RenderAction.noop, resetsTimestamp := false, flag := isRenderSpawned }
  | none =>
    { action := RenderAction.render, resetsTimestamp := true, flag := isRenderSpawned }

/-- One iteration of the reconnector loop (main.rs lines 117-149), as seen by
its environment: either the connectivity probe reports offline, or it reports
online and `receive_messages()` fails with error `e`, or it succeeds and the
stream yields the finite list `msgs` of decoded messages before ending. -/
inductive ConnAttempt where
  | offline
  | connFail (e : String)
  | connOk (msgs : List Nat)
deriving DecidableEq

/-- Observable actions of the reconnector task. -/
inductive RAction where
  | probe (online : Bool)
  | sleep (secs : Nat)
  | openStream
  | emit (e : Event)
deriving DecidableEq

/-- The context string attached on stream-open failure (main.rs lines
128-131); quote punctuation around the relink flag is elided. -/
def RELINK_CONTEXT : String :=
  "failed to initialize the stream of Signal messages.\nMaybe the device was unlinked? Please try to restart with --relink flag."

/-- The reconnector task (main.rs lines 116-150) sequentialised over a finite
script of per-iteration network outcomes. Offline: sleep 10 s and loop.
Online with failing `receive_messages()`: wrap the error with
`RELINK_CONTEXT`, send `Quit(Some(err))` and `return` (the rest of the script
is never reached). Online with a stream: forward each decoded message as a
`Message` event, then loop (re-probe). -/
def reconnectorTrace : List ConnAttempt → List RAction
  | [] => []
  | ConnAttempt.offline :: rest =>
    RAction.probe false :: RAction.sleep 10 :: reconnectorTrace rest
  | ConnAttempt.connFail e :: _rest =>
    [RAction.probe true, RAction.openStream,
     RAction.emit (Event.Quit (some [RELINK_CONTEXT, e]))]
  | ConnAttempt.connOk msgs :: rest =>
    RAction.probe true :: RAction.openStream ::
      (msgs.map (fun m => RAction.emit (Event.Message m)) ++ reconnectorTrace rest)

/-- Is this action the emission of a `Quit` event? -/
def isQuitEmit : RAction → Bool
  | RAction.emit (Event.Quit _) => true
  | _ => false

/-- Number of `Quit` events emitted along a trace. -/
def quitCount (tr : List RAction) : Nat := tr.countP (fun a => isQuitEmit a)

/-- Does this script entry make `receive_messages()` fail? -/
def isConnFail : ConnAttempt → Bool
  | ConnAttempt.connFail _ => true
  | _ => false

/-- The trace produced by `k` consecutive offline probes: probe, sleep the
fixed 10 second backoff, re-probe, ... -/
def offlineTrace : Nat → List RAction
  | 0 => []
  | k + 1 => RAction.probe false :: RAction.sleep 10 :: offlineTrace k

/-- The function `is_online` (main.rs lines 75-79) returns
`TcpStream::connect("detectportal.firefox.com:80").await.is_ok()`. The
connect outcome is supplied by the network environment; the probe is one
connect attempt whose success is reported verbatim. -/
def ONLINE_PROBE_ADDR : String := "detectportal.firefox.com:80"

/-- The test `Result::is_ok` on the outcome of the TCP connect attempt. -/
def exceptIsOk {ε σ : Type} : Except ε σ → Bool
  | Except.ok _ => true
  | Except.error _ => false

/-- The probe `is_online` (main.rs lines 75-79): the boolean result of the single
connect attempt to `ONLINE_PROBE_ADDR`. -/
def is_online (connectResult : Except ErrChain Unit) : Bool :=
  exceptIsOk connectResult

/-- Modelled from the spec: the update function (`mod update`, whose source is
not under src/) takes the current application state and one event and yields
either the next state, a termination signal (no next state), or an error. Per
the spec, on `Quit` carrying an error that error is what the loop reports as
the process failure, so `update` returns it as an error (which line 185's
question-mark operator propagates); on `Quit` without an error it signals
termination. Its behaviour on all other events is an arbitrary handler. -/
def updateModel {α : Type} (handle : α → Event → Except ErrChain (Option α))
    (a : α) (e : Event) : Except ErrChain (Option α) :=
  match e with
  | Event.Quit (some err) => Except.error err
  | Event.Quit none => Except.ok none
  | e => handle a e

/-- What `rx.recv().await` produced when the dispatch loop woke up. -/
inductive RecvResult where
  | got (e : Event)
  | closed
deriving DecidableEq

/-- Environment inputs of one dispatch-loop iteration:
`last_render_at.elapsed()` at the top of the iteration, the outcome of
`terminal.draw` (consulted only when a render is due), and the outcome of
`rx.recv().await`. -/
structure Iter where
  elapsed_ns : Nat
  drawResult : Except ErrChain Unit
  recv : RecvResult

/-- How the dispatch loop (main.rs lines 159-193) came to stop. -/
inductive LoopResult where
  | drawFailed (e : ErrChain)
  | updateFailed (e : ErrChain)
  | updateTerminated
  | channelClosed
deriving DecidableEq

/-- The dispatch loop of `run_single_threaded` (main.rs lines 159-193) over a
finite script of iteration inputs: run the frame-limiter prologue; when it
renders, a failing `terminal.draw` propagates via the question-mark operator;
then block on the channel: `None` breaks the loop (channel closed), an
event goes to `update`, whose error propagates, whose `None` breaks the loop,
and whose `Some(next_app)` continues. `none` means the script ran out before
the loop stopped. -/
def runLoop {α : Type} (upd : α → Event → Except ErrChain (Option α)) :
    α → Bool → List Iter → Option LoopResult
  | _, _, [] => none
  | a, flag, it :: rest =>
    let lr := frameLimiterStep it.elapsed_ns flag
    match (match lr.action with
           | RenderAction.render => it.drawResult
           | _ => Except.ok ()) with
    | Except.error e => some (LoopResult.drawFailed e)
    | Except.ok _ =>
      match it.recv with
      | RecvResult.closed => some LoopResult.channelClosed
      | RecvResult.got e =>
        match upd a e with
        | Except.error err => some (LoopResult.updateFailed err)
        | Except.ok none => some LoopResult.updateTerminated
        | Except.ok (some a2) => runLoop upd a2 lr.flag rest

/-- The `anyhow::Result<()>` value `run_single_threaded` returns for each way
the loop can stop: propagated errors via the question-mark operator, normal
`break` (update termination or channel closure) reaching `Ok(())`. -/
def loopResultToResult : LoopResult → Except ErrChain Unit
  | LoopResult.drawFailed e => Except.error e
  | LoopResult.updateFailed e => Except.error e
  | LoopResult.updateTerminated => Except.ok ()
  | LoopResult.channelClosed => Except.ok ()

/-- Process exit status determined by `main`'s `anyhow::Result`: 0 on `Ok`,
non-zero on `Err`. -/
def processExitCode : Except ErrChain Unit → Nat
  | Except.ok _ => 0
  | Except.error _ => 1

/-- Terminal lifecycle operations performed by `run_single_threaded`. -/
inductive TermOp where
  | enableRaw
  | enterAltScreen
  | enableMouseCapture
  | leaveAltScreen
  | disableMouseCapture
  | showCursor
  | disableRaw
deriving DecidableEq

/-- Environment outcomes for one whole run of `run_single_threaded`: the
fallible setup steps in program order (`App::try_new`, `enable_raw_mode`,
`execute!(EnterAlternateScreen, EnableMouseCapture)`, `Terminal::new`,
`terminal.clear`), then the per-iteration loop inputs. -/
structure Script (α : Type) where
  tryNewResult : Except ErrChain α
  enableRawResult : Except ErrChain Unit
  enterAltResult : Except ErrChain Unit
  terminalNewResult : Except ErrChain Unit
  clearResult : Except ErrChain Unit
  iters : List Iter

/-- The whole of `run_single_threaded` (main.rs lines 81-204): each failing
setup step returns its error at once via the question-mark operator; the
scopeguard armed right after `enable_raw_mode()` succeeds (lines 85-87) runs
`disable_raw_mode` on every later exit, error or not; the `execute!` leaving
the alternate screen and disabling mouse capture plus `show_cursor` (lines
195-201) run only after the loop stops by `break`, i.e. only on the `Ok`
result. Returns the function result together with the terminal lifecycle
operations performed, in order; `none` when the iteration script ran out. -/
def runSingleThreaded {α : Type} (upd : α → Event → Except ErrChain (Option α))
    (s : Script α) : Option (Except ErrChain Unit × List TermOp) :=
  match s.tryNewResult with
  | Except.error e => some (Except.error e, [])
  | Except.ok a =>
    match s.enableRawResult with
    | Except.error e => some (Except.error e, [])
    | Except.ok _ =>
      match s.enterAltResult with
      | Except.error e => some (Except.error e, [TermOp.enableRaw, TermOp.disableRaw])
      | Except.ok _ =>
        match s.terminalNewResult with
        | Except.error e =>
          some (Except.error e,
            [TermOp.enableRaw, TermOp.enterAltScreen, TermOp.enableMouseCapture,
             TermOp.disableRaw])
        | Except.ok _ =>
          match s.clearResult with
          | Except.error e =>
            some (Except.error e,
              [TermOp.enableRaw, TermOp.enterAltScreen, TermOp.enableMouseCapture,
               TermOp.disableRaw])
          | Except.ok _ =>
            match runLoop upd a false s.iters with
            | none => none
            | some r =>
              match loopResultToResult r with
              | Except.error e =>
                some (Except.error e,
                  [TermOp.enableRaw, TermOp.enterAltScreen, TermOp.enableMouseCapture,
                   TermOp.disableRaw])
              | Except.ok _ =>
                some (Except.ok (),
                  [TermOp.enableRaw, TermOp.enterAltScreen, TermOp.enableMouseCapture,
                   TermOp.leaveAltScreen, TermOp.disableMouseCapture, TermOp.showCursor,
                   TermOp.disableRaw])

/-- State shared between the dispatch loop and the deferred-redraw timer
tasks: the `is_render_spawned` atomic flag (main.rs line 155), the number of
in-flight timer tasks, and counters of spawns and of `Redraw` events the
timers have sent. -/
structure SchedState where
  flag : Bool
  pending : Nat
  spawns : Nat
  redrawsEmitted : Nat
deriving DecidableEq

/-- Initial scheduler state: `AtomicBool::new(false)`, no timer in flight. -/
def initSched : SchedState :=
  { flag := false, pending := 0, spawns := 0, redrawsEmitted := 0 }

/-- Atomic steps of the redraw scheduler. `mainSpawn`: a dispatch-loop
iteration inside the frame budget observes the flag unset, stores `true` and
spawns one timer task (main.rs lines 162-177). `timerFire`: an in-flight
timer task finishes its sleep, sends its one `Redraw` event and stores
`false` (lines 168-176; the send and the store are the task's final two
actions, merged into one step — no spawn can intervene between them because
the flag is still set). Loop iterations that observe the flag set, or that
render, leave this state unchanged and need no step. -/
inductive SchedStep : SchedState → SchedState → Prop where
  | mainSpawn (s : SchedState) (h : s.flag = false) :
      SchedStep s
        { flag := true, pending := s.pending + 1, spawns := s.spawns + 1,
          redrawsEmitted := s.redrawsEmitted }
  | timerFire (s : SchedState) (p : Nat) (h : s.pending = p + 1) :
      SchedStep s
        { flag := false, pending := p, spawns := s.spawns,
          redrawsEmitted := s.redrawsEmitted + 1 }

/-- Scheduler states reachable from the initial state. -/
def SchedReachable (s : SchedState) : Prop :=
  Relation.ReflTransGen SchedStep initSched s

/-- The inductive invariant of the redraw scheduler: the flag is set exactly
when one timer task is in flight, and every spawn is accounted for by either
an emitted `Redraw` or the one pending timer. -/
def SchedInv (s : SchedState) : Prop :=
  s.pending = (if s.flag then 1 else 0) ∧ s.spawns = s.redrawsEmitted + s.pending

/-- State of the events mpsc channel (main.rs line 92) as far as closure is
concerned: how many `Sender` handles are alive, and the buffered events. -/
structure ChannelState where
  senders : Nat
  queue : List Event
deriving DecidableEq

/-- tokio's `Receiver::recv` resolves to `None` exactly when every sender has
been dropped and no buffered message remains. -/
def recvReturnsNone (c : ChannelState) : Prop :=
  c.senders = 0 ∧ c.queue = []

/-- Senders alive while the dispatch loop runs: the original `tx` bound at
main.rs line 92, which `run_single_threaded` holds in scope through the whole
loop (it is only ever cloned, at lines 94, 115 and 165), plus however many
clones the spawned tasks and timers hold. -/
def loopSenders (clones : Nat) : Nat := 1 + clones

/-- The terminal lifecycle operations performed on a run where the loop stops
by `break`: full restore (lines 195-201) then the raw-mode guard. -/
def cleanupAll : List TermOp :=
  [TermOp.enableRaw, TermOp.enterAltScreen, TermOp.enableMouseCapture,
   TermOp.leaveAltScreen, TermOp.disableMouseCapture, TermOp.showCursor,
   TermOp.disableRaw]

/-- The operations performed when `execute!(EnterAlternateScreen, ...)` fails:
only raw mode had been enabled, and only the guard runs. -/
def cleanupGuardOnly : List TermOp := [TermOp.enableRaw, TermOp.disableRaw]

/-- The operations performed when an error propagates out after the alternate
screen was entered: the guard disables raw mode, but the alternate screen is
never left and mouse capture is never disabled. -/
def cleanupErrAfterAlt : List TermOp :=
  [TermOp.enableRaw, TermOp.enterAltScreen, TermOp.enableMouseCapture,
   TermOp.disableRaw]

/-! Theorems. -/

/-- Claim C2, counterexample: the frame interval the code computes is
`from_millis(1000 / 144)` with integer division, i.e. 6 ms = 6000000 ns, and
6000000 * 144 ≠ 1000 * 1000000, so the interval is not 1000/144 ms ≈ 6.94 ms
as claimed; moreover a redraw request arriving 2 ms after the last render
schedules a deferred render only 4000000 ns = 4 ms later, which is earlier
than the claimed lower bound of 4.94 ms. -/
theorem c2_frame_interval_counterexample :
    FRAME_BUDGET_ns * 144 ≠ 1000 * 1000000 ∧
    (frameLimiterStep 2000000 false).action = RenderAction.spawnTimer 4000000 ∧
    4000000 < 4940000 := by
  refine ⟨by decide, by decide, by decide⟩

/-- Claim C2 as amended: the fixed frame interval equals
`1000 / 144` milliseconds under integer division, i.e. exactly 6 ms, and a
redraw request arriving 2 ms after the last render schedules a deferred
render firing 4 ms later. -/
theorem c2_frame_interval_amended :
    FRAME_BUDGET_ms = 1000 / 144 ∧ FRAME_BUDGET_ms = 6 ∧ FRAME_BUDGET_ns = 6000000 ∧
    frameLimiterStep 2000000 false =
      { action := RenderAction.spawnTimer 4000000, resetsTimestamp := false,
        flag := true } := by
  refine ⟨rfl, by decide, by decide, by decide⟩

/-- Claim C3, counterexample: at elapsed time exactly equal to the frame
interval (6000000 ns), the claim demands an immediate render, but
`FRAME_BUDGET.checked_sub(elapsed)` is `Some(0)`, so the code schedules a
deferred task with a zero sleep and performs no render and no timestamp
update. -/
theorem c3_boundary_counterexample :
    (frameLimiterStep FRAME_BUDGET_ns false).action = RenderAction.spawnTimer 0 ∧
    (frameLimiterStep FRAME_BUDGET_ns false).action ≠ RenderAction.render ∧
    (frameLimiterStep FRAME_BUDGET_ns false).resetsTimestamp = false := by
  decide

/-- Claim C3 as amended: at the start of every dispatch-loop iteration, if
the elapsed time since the last completed render is strictly greater than
the frame interval, a render is performed immediately and the timestamp is
reset, with nothing scheduled; if the elapsed time is at most the frame
interval, no render is performed, and when the render-spawn flag is unset a
task is scheduled that sleeps exactly (frame interval − elapsed) before
emitting `Redraw` (the flag becoming set), while when the flag is already
set nothing is done. -/
theorem c3_frame_limiter_amended (elapsed_ns : Nat) (flag : Bool) :
    (FRAME_BUDGET_ns < elapsed_ns →
      frameLimiterStep elapsed_ns flag =
        { action := RenderAction.render, resetsTimestamp := true, flag := flag }) ∧
    (elapsed_ns ≤ FRAME_BUDGET_ns → flag = false →
      frameLimiterStep elapsed_ns flag =
        { action := RenderAction.spawnTimer (FRAME_BUDGET_ns - elapsed_ns),
          resetsTimestamp := false, flag := true }) ∧
    (elapsed_ns ≤ FRAME_BUDGET_ns → flag = true →
      frameLimiterStep elapsed_ns flag =
        { action := RenderAction.noop, resetsTimestamp := false, flag := true }) := by
  refine ⟨fun h => ?_, fun h hf => ?_, fun h hf => ?_⟩
  · rw [frameLimiterStep, checkedSub, if_neg (by omega)]
  · rw [frameLimiterStep, checkedSub, if_pos h]
    subst hf
    rfl
  · rw [frameLimiterStep, checkedSub, if_pos h]
    subst hf
    rfl

/-- Witness for the amended C3 theorem at concrete inputs: 7 ms elapsed with
the flag unset renders immediately, and 2 ms elapsed with the flag unset
schedules a 4 ms deferred redraw. -/
theorem c3_frame_limiter_amended_witness :
    frameLimiterStep 7000000 false =
      { action := RenderAction.render, resetsTimestamp := true, flag := false } ∧
    frameLimiterStep 2000000 false =
      { action := RenderAction.spawnTimer (FRAME_BUDGET_ns - 2000000),
        resetsTimestamp := false, flag := true } :=
  ⟨(c3_frame_limiter_amended 7000000 false).1 (by decide),
   (c3_frame_limiter_amended 2000000 false).2.1 (by decide) rfl⟩

/-- The scheduler invariant holds in the initial state and is preserved by
every scheduler step. -/
theorem schedInv_of_reachable (s : SchedState) (h : SchedReachable s) :
    SchedInv s := by
  induction h with
  | refl => exact ⟨rfl, rfl⟩
  | tail _hsteps hstep ih =>
    rename_i b c
    rcases ih with ⟨hp, hs⟩
    cases hstep with
    | mainSpawn hf =>
      constructor
      · show b.pending + 1 = 1
        rw [hf] at hp
        simp at hp
        omega
      · show b.spawns + 1 = b.redrawsEmitted + (b.pending + 1)
        omega
    | timerFire p hpend =>
      constructor
      · show p = 0
        rcases hfl : b.flag <;> rw [hfl] at hp <;> simp at hp <;> omega
      · show b.spawns = b.redrawsEmitted + 1 + p
        omega

/-- Claim C4: at every reachable scheduler state at most one deferred-redraw
timer task is in flight; the render-spawn flag is set exactly when one timer
is pending (it is set when the timer is spawned and cleared exactly once, by
that timer, when it fires and emits its `Redraw`); and every spawn is
accounted for by exactly one emitted `Redraw` event once no timer is
pending, so a burst of redraw requests within one frame window collapses
into the single trailing `Redraw` of the one pending timer. -/
theorem c4_single_timer_invariant (s : SchedState) (h : SchedReachable s) :
    s.pending ≤ 1 ∧ (s.flag = true ↔ s.pending = 1) ∧
    s.spawns = s.redrawsEmitted + s.pending := by
  rcases schedInv_of_reachable s h with ⟨hp, hs⟩
  refine ⟨?_, ?_, hs⟩
  · cases hf : s.flag <;> rw [hf] at hp <;> simp at hp <;> omega
  · cases hf : s.flag <;> rw [hf] at hp <;> simp at hp <;> simp [hp]

/-- A reconnector script prefix that never fails to open a stream contributes
its trace as a prefix of the whole trace. -/
theorem reconnectorTrace_append (pre rest : List ConnAttempt)
    (h : ∀ x ∈ pre, isConnFail x = false) :
    reconnectorTrace (pre ++ rest) =
      reconnectorTrace pre ++ reconnectorTrace rest := by
  induction pre with
  | nil => simp [reconnectorTrace]
  | cons hd tl ih =>
    have hhd := h hd (List.mem_cons_self hd tl)
    have htl : ∀ x ∈ tl, isConnFail x = false :=
      fun x hx => h x (List.mem_cons_of_mem hd hx)
    cases hd with
    | offline => simp [reconnectorTrace, ih htl]
    | connFail e => simp [isConnFail] at hhd
    | connOk msgs => simp [reconnectorTrace, ih htl]

/-- Forwarded decoded messages are never `Quit` events. -/
theorem quitCount_message_map (msgs : List Nat) :
    quitCount (msgs.map (fun m => RAction.emit (Event.Message m))) = 0 := by
  induction msgs with
  | nil => rfl
  | cons m tl ih =>
    simp only [List.map_cons, quitCount, List.countP_cons, isQuitEmit] at ih ⊢
    simp [ih]

/-- A reconnector script that never fails to open a stream emits no `Quit`
event. -/
theorem quitCount_noFail (pre : List ConnAttempt)
    (h : ∀ x ∈ pre, isConnFail x = false) :
    quitCount (reconnectorTrace pre) = 0 := by
  induction pre with
  | nil => rfl
  | cons hd tl ih =>
    have hhd := h hd (List.mem_cons_self hd tl)
    have htl : ∀ x ∈ tl, isConnFail x = false :=
      fun x hx => h x (List.mem_cons_of_mem hd hx)
    cases hd with
    | offline =>
      simp only [reconnectorTrace, quitCount, List.countP_cons, isQuitEmit]
      simpa [quitCount] using ih htl
    | connFail e => simp [isConnFail] at hhd
    | connOk msgs =>
      have h1 := quitCount_message_map msgs
      have h2 := ih htl
      simp only [quitCount] at h1 h2
      simp [reconnectorTrace, quitCount, List.countP_cons, List.countP_append,
        isQuitEmit, h1, h2]
      intro x hx
      have hx0 := List.countP_eq_zero.mp h2 x hx
      simpa [isQuitEmit] using hx0

/-- Claim C5: when the connectivity probe succeeds but opening the message
stream fails with error `e` (after any prefix of iterations that did not
fail to open a stream), the reconnector emits exactly one `Quit` event, whose
error is `e` wrapped with the re-linking guidance `RELINK_CONTEXT`, and then
returns: the trace stops at that emission, so no further connectivity
probes, stream openings or events follow, whatever the rest of the script
would have been. -/
theorem c5_stream_open_failure (pre : List ConnAttempt) (e : String)
    (rest : List ConnAttempt) (h : ∀ x ∈ pre, isConnFail x = false) :
    reconnectorTrace (pre ++ ConnAttempt.connFail e :: rest) =
      reconnectorTrace pre ++
        [RAction.probe true, RAction.openStream,
         RAction.emit (Event.Quit (some [RELINK_CONTEXT, e]))] ∧
    quitCount (reconnectorTrace (pre ++ ConnAttempt.connFail e :: rest)) = 1 := by
  have happ := reconnectorTrace_append pre (ConnAttempt.connFail e :: rest) h
  have h0 := quitCount_noFail pre h
  constructor
  · rw [happ]
    rfl
  · rw [happ]
    simp only [quitCount, List.countP_append] at h0 ⊢
    rw [h0]
    rfl

/-- Witness for C5 at a concrete script: one offline probe, then a failing
stream open with error message "connect refused", then further script
entries that are provably never reached. -/
theorem c5_stream_open_failure_witness :
    reconnectorTrace
        ([ConnAttempt.offline] ++
          ConnAttempt.connFail ("connect refused") :: [ConnAttempt.offline]) =
      reconnectorTrace [ConnAttempt.offline] ++
        [RAction.probe true, RAction.openStream,
         RAction.emit (Event.Quit (some [RELINK_CONTEXT, "connect refused"]))] ∧
    quitCount
        (reconnectorTrace
          ([ConnAttempt.offline] ++
            ConnAttempt.connFail ("connect refused") :: [ConnAttempt.offline])) = 1 :=
  c5_stream_open_failure [ConnAttempt.offline] ("connect refused")
    [ConnAttempt.offline] (by decide)

/-- Claim C6: while a stream is open, the reconnector emits one `Message`
event per decoded message, in stream order, and nothing else; when the
stream ends without error the reconnector emits no `Quit` and goes back to
probing connectivity — the continuation trace of any non-empty remaining
script starts with a connectivity probe. -/
theorem c6_streaming_messages (msgs : List Nat) (rest : List ConnAttempt) :
    reconnectorTrace (ConnAttempt.connOk msgs :: rest) =
      RAction.probe true :: RAction.openStream ::
        (msgs.map (fun m => RAction.emit (Event.Message m)) ++
          reconnectorTrace rest) ∧
    quitCount (msgs.map (fun m => RAction.emit (Event.Message m))) = 0 ∧
    (∀ hd tl, rest = hd :: tl →
      ∃ b tr, reconnectorTrace rest = RAction.probe b :: tr) := by
  refine ⟨rfl, quitCount_message_map msgs, ?_⟩
  intro hd tl hrest
  subst hrest
  cases hd with
  | offline => exact ⟨false, _, rfl⟩
  | connFail e => exact ⟨true, _, rfl⟩
  | connOk m => exact ⟨true, _, rfl⟩

/-- Witness for C6 at a concrete script: a stream yielding messages 1, 2, 3
then ending, followed by a non-empty remaining script whose trace indeed
starts with a connectivity probe. -/
theorem c6_streaming_messages_witness :
    ∃ b tr, reconnectorTrace [ConnAttempt.offline] = RAction.probe b :: tr :=
  (c6_streaming_messages [1, 2, 3] [ConnAttempt.offline]).2.2
    ConnAttempt.offline [] rfl

/-- Claim C7: while the connectivity probe keeps reporting offline, the
reconnector performs no stream opening at all; each offline probe is
followed by a sleep of exactly the fixed 10 second backoff and a re-probe,
for as long as the probe keeps failing. -/
theorem c7_offline_backoff (k : Nat) (rest : List ConnAttempt) :
    reconnectorTrace (List.replicate k ConnAttempt.offline ++ rest) =
      offlineTrace k ++ reconnectorTrace rest ∧
    RAction.openStream ∉ offlineTrace k ∧
    (offlineTrace k).length = 2 * k := by
  induction k with
  | zero => exact ⟨by simp [offlineTrace], by simp [offlineTrace], rfl⟩
  | succ n ih =>
    rcases ih with ⟨h1, h2, h3⟩
    refine ⟨?_, ?_, ?_⟩
    · simp [List.replicate_succ, reconnectorTrace, offlineTrace, h1]
    · intro hmem
      simp only [offlineTrace, List.mem_cons] at hmem
      rcases hmem with h | h | h
      · exact RAction.noConfusion h
      · exact RAction.noConfusion h
      · exact h2 h
    · simp only [offlineTrace, List.length_cons]
      omega

/-- Every terminating run of `run_single_threaded` produces one of four
result/operations shapes: clean break with the full restore sequence, a
setup failure before raw mode (no operations), a failure of the alternate
screen `execute!` (guard only), or a later error with raw mode enabled and
the alternate screen entered but never left. -/
theorem runSingleThreaded_shape {α : Type}
    (upd : α → Event → Except ErrChain (Option α)) (s : Script α)
    (out : Except ErrChain Unit × List TermOp)
    (h : runSingleThreaded upd s = some out) :
    out = (Except.ok (), cleanupAll) ∨
    (∃ e, out = (Except.error e, [])) ∨
    (∃ e, out = (Except.error e, cleanupGuardOnly)) ∨
    (∃ e, out = (Except.error e, cleanupErrAfterAlt)) := by
  obtain ⟨t, er, ea, tn, cl, its⟩ := s
  rcases t with e | a
  · simp only [runSingleThreaded] at h
    rw [Option.some.injEq] at h
    exact Or.inr (Or.inl ⟨e, h.symm⟩)
  rcases er with e | u1
  · simp only [runSingleThreaded] at h
    rw [Option.some.injEq] at h
    exact Or.inr (Or.inl ⟨e, h.symm⟩)
  rcases ea with e | u2
  · simp only [runSingleThreaded] at h
    rw [Option.some.injEq] at h
    exact Or.inr (Or.inr (Or.inl ⟨e, h.symm⟩))
  rcases tn with e | u3
  · simp only [runSingleThreaded] at h
    rw [Option.some.injEq] at h
    exact Or.inr (Or.inr (Or.inr ⟨e, h.symm⟩))
  rcases cl with e | u4
  · simp only [runSingleThreaded] at h
    rw [Option.some.injEq] at h
    exact Or.inr (Or.inr (Or.inr ⟨e, h.symm⟩))
  rcases hloop : runLoop upd a false its with _ | r
  · simp only [runSingleThreaded, hloop] at h
    exact Option.noConfusion h
  rcases r with e | e | _ | _ <;>
    simp only [runSingleThreaded, hloop, loopResultToResult] at h <;>
    rw [Option.some.injEq] at h
  · exact Or.inr (Or.inr (Or.inr ⟨e, h.symm⟩))
  · exact Or.inr (Or.inr (Or.inr ⟨e, h.symm⟩))
  · exact Or.inl h.symm
  · exact Or.inl h.symm

/-- Claim C1, counterexample: a run in which every setup step succeeds, the
first loop iteration is past the frame budget (elapsed 7 ms) and the draw
fails, exits via the question-mark operator: the alternate screen had been
entered and mouse capture enabled, yet on this exit path the alternate
screen is not left and mouse capture is not disabled — only the raw-mode
scopeguard runs. This refutes the claim that every exit path of the
dispatch loop leaves the alternate screen and disables pointer capture. -/
theorem c1_terminal_restore_counterexample :
    runSingleThreaded (fun (a : Unit) _ => Except.ok (some a))
        { tryNewResult := Except.ok (), enableRawResult := Except.ok (),
          enterAltResult := Except.ok (), terminalNewResult := Except.ok (),
          clearResult := Except.ok (),
          iters := [{ elapsed_ns := 7000000,
                      drawResult := Except.error ["draw failed"],
                      recv := RecvResult.got Event.Redraw }] } =
      some (Except.error ["draw failed"], cleanupErrAfterAlt) ∧
    TermOp.enterAltScreen ∈ cleanupErrAfterAlt ∧
    TermOp.enableMouseCapture ∈ cleanupErrAfterAlt ∧
    TermOp.leaveAltScreen ∉ cleanupErrAfterAlt ∧
    TermOp.disableMouseCapture ∉ cleanupErrAfterAlt ∧
    TermOp.disableRaw ∈ cleanupErrAfterAlt := by
  refine ⟨rfl, by decide, by decide, by decide, by decide, by decide⟩

/-- Claim C1 as amended: on every exit path of the dispatch loop after raw
mode was enabled, raw mode is disabled before control returns (the
scopeguard runs last); but the alternate screen is left and mouse capture
disabled exactly on the paths where the loop exits by `break` (update
termination, quit, channel closure) — on any exit caused by a propagated
error the alternate screen is not left and mouse capture stays enabled. -/
theorem c1_terminal_restore_amended {α : Type}
    (upd : α → Event → Except ErrChain (Option α)) (s : Script α)
    (out : Except ErrChain Unit × List TermOp)
    (h : runSingleThreaded upd s = some out) :
    (TermOp.enableRaw ∈ out.2 → out.2.getLast? = some TermOp.disableRaw) ∧
    (out.1 = Except.ok () → out.2 = cleanupAll) ∧
    (∀ e, out.1 = Except.error e →
      TermOp.leaveAltScreen ∉ out.2 ∧ TermOp.disableMouseCapture ∉ out.2) := by
  rcases runSingleThreaded_shape upd s out h with h1 | ⟨e, h1⟩ | ⟨e, h1⟩ | ⟨e, h1⟩ <;>
    subst h1
  · exact ⟨fun _ => rfl, fun _ => rfl, fun e' he' => by simp at he'⟩
  · exact ⟨fun hm => by simp at hm, fun hok => by simp at hok,
      fun e' _ => ⟨by simp, by simp⟩⟩
  · exact ⟨fun _ => rfl, fun hok => by simp at hok,
      fun e' _ => ⟨by simp [cleanupGuardOnly], by simp [cleanupGuardOnly]⟩⟩
  · exact ⟨fun _ => rfl, fun hok => by simp at hok,
      fun e' _ => ⟨by simp [cleanupErrAfterAlt], by simp [cleanupErrAfterAlt]⟩⟩

/-- Witness for the amended C1 theorem at a concrete run: a clean exit (the
update function signals termination on the only event) restores everything,
and in particular the very last operation is disabling raw mode. -/
theorem c1_terminal_restore_amended_witness :
    ((Except.ok (), cleanupAll) : Except ErrChain Unit × List TermOp).2.getLast? =
      some TermOp.disableRaw :=
  (c1_terminal_restore_amended (fun (_ : Unit) _ => Except.ok none)
      { tryNewResult := Except.ok (), enableRawResult := Except.ok (),
        enterAltResult := Except.ok (), terminalNewResult := Except.ok (),
        clearResult := Except.ok (),
        iters := [{ elapsed_ns := 0, drawResult := Except.ok (),
                    recv := RecvResult.got Event.Redraw }] }
      (Except.ok (), cleanupAll) rfl).1 (by decide)

/-- Claim C8 (with the update function modelled from the spec): the dispatch
loop stops on a received `Quit` event — when it carries an error, that error
is what the loop result propagates as the process failure (non-zero exit);
on `Quit(None)` the loop breaks with no error; and when the channel receive
returns end-of-stream the loop breaks with no error; both of the latter give
the process its success status (exit code 0). -/
theorem c8_quit_and_closure {α : Type}
    (handle : α → Event → Except ErrChain (Option α)) (a : α) (err : ErrChain)
    (flag : Bool) (rest : List Iter) :
    runLoop (updateModel handle) a flag
        ({ elapsed_ns := 0, drawResult := Except.ok (),
           recv := RecvResult.got (Event.Quit (some err)) } :: rest) =
      some (LoopResult.updateFailed err) ∧
    runLoop (updateModel handle) a flag
        ({ elapsed_ns := 0, drawResult := Except.ok (),
           recv := RecvResult.got (Event.Quit none) } :: rest) =
      some LoopResult.updateTerminated ∧
    runLoop (updateModel handle) a flag
        ({ elapsed_ns := 0, drawResult := Except.ok (),
           recv := RecvResult.closed } :: rest) =
      some LoopResult.channelClosed ∧
    loopResultToResult (LoopResult.updateFailed err) = Except.error err ∧
    processExitCode (loopResultToResult (LoopResult.updateFailed err)) = 1 ∧
    processExitCode (loopResultToResult LoopResult.updateTerminated) = 0 ∧
    processExitCode (loopResultToResult LoopResult.channelClosed) = 0 := by
  cases flag <;> exact ⟨rfl, rfl, rfl, rfl, rfl, rfl, rfl⟩

/-- Claim C9: the connectivity probe is a single TCP connect attempt to the
well-known endpoint `ONLINE_PROBE_ADDR` whose boolean result is `true`
exactly when the connection attempt succeeded and `false` exactly when it
failed. -/
theorem c9_probe_boolean (r : Except ErrChain Unit) :
    ONLINE_PROBE_ADDR = "detectportal.firefox.com:80" ∧
    (is_online r = true ↔ ∃ u, r = Except.ok u) ∧
    (is_online r = false ↔ ∃ e, r = Except.error e) := by
  refine ⟨rfl, ?_, ?_⟩ <;> cases r <;> simp [is_online, exceptIsOk]

/-- No run of the dispatch loop in which every channel receive yields an
event can stop with the channel-closed result. -/
theorem runLoop_no_closed {α : Type}
    (upd : α → Event → Except ErrChain (Option α)) :
    ∀ (iters : List Iter) (a : α) (flag : Bool),
      (∀ it ∈ iters, it.recv ≠ RecvResult.closed) →
      runLoop upd a flag iters ≠ some LoopResult.channelClosed := by
  intro iters
  induction iters with
  | nil =>
    intro a flag _ hcl
    simp [runLoop] at hcl
  | cons it rest ih =>
    intro a flag hrecv hcl
    have hit := hrecv it (List.mem_cons_self it rest)
    have hrest : ∀ x ∈ rest, x.recv ≠ RecvResult.closed :=
      fun x hx => hrecv x (List.mem_cons_of_mem it hx)
    simp only [runLoop] at hcl
    split at hcl
    · simp at hcl
    · split at hcl
      · next heq => exact hit heq
      · split at hcl
        · simp at hcl
        · simp at hcl
        · exact ih _ _ hrest hcl

/-- Claim C10: while the dispatch loop runs, the channel has at least the
original sender handle alive (`loopSenders clones ≥ 1` for any number of
clones held by spawned tasks), so the blocking receive can never resolve to
the end-of-stream indication; consequently the loop's channel-closed exit
branch is unreachable, and the loop can only stop through the update
function (termination or a propagated error) or a failed draw. -/
theorem c10_channel_closed_unreachable {α : Type} (clones : Nat)
    (c : ChannelState) (hc : c.senders = loopSenders clones)
    (upd : α → Event → Except ErrChain (Option α)) (a : α) (flag : Bool)
    (iters : List Iter)
    (hrecv : ∀ it ∈ iters, it.recv ≠ RecvResult.closed) :
    ¬ recvReturnsNone c ∧
    runLoop upd a flag iters ≠ some LoopResult.channelClosed := by
  refine ⟨?_, runLoop_no_closed upd iters a flag hrecv⟩
  intro hnone
  rcases hnone with ⟨h0, _⟩
  rw [hc] at h0
  simp [loopSenders] at h0

/-- Witness for C10 at concrete inputs: a channel with the original sender
and two clones alive cannot yield end-of-stream, and a one-iteration run
that receives a `Redraw` event does not stop with the channel-closed
result. -/
theorem c10_channel_closed_unreachable_witness :
    ¬ recvReturnsNone { senders := 3, queue := [] } ∧
    runLoop (fun (a : Unit) _ => Except.ok (some a)) () false
        [{ elapsed_ns := 0, drawResult := Except.ok (),
           recv := RecvResult.got Event.Redraw }] ≠
      some LoopResult.channelClosed :=
  c10_channel_closed_unreachable 2 { senders := 3, queue := [] } rfl
    (fun (a : Unit) _ => Except.ok (some a)) () false
    [{ elapsed_ns := 0, drawResult := Except.ok (),
       recv := RecvResult.got Event.Redraw }]
    (by
      intro it hit
      rw [List.mem_singleton] at hit
      subst hit
      decide)

/-- Witness for C4 at a concrete reachable state: after one spawn step and
the matching timer firing, the invariant holds (checked via the theorem at
that reachable state). -/
theorem c4_single_timer_invariant_witness :
    ({ flag := false, pending := 0, spawns := 1, redrawsEmitted := 1 } :
        SchedState).pending ≤ 1 ∧
    ((({ flag := false, pending := 0, spawns := 1, redrawsEmitted := 1 } :
        SchedState).flag = true) ↔
      ({ flag := false, pending := 0, spawns := 1, redrawsEmitted := 1 } :
        SchedState).pending = 1) ∧
    ({ flag := false, pending := 0, spawns := 1, redrawsEmitted := 1 } :
        SchedState).spawns =
      ({ flag := false, pending := 0, spawns := 1, redrawsEmitted := 1 } :
          SchedState).redrawsEmitted +
        ({ flag := false, pending := 0, spawns := 1, redrawsEmitted := 1 } :
            SchedState).pending :=
  c4_single_timer_invariant _
    (Relation.ReflTransGen.tail
      (Relation.ReflTransGen.single (SchedStep.mainSpawn initSched rfl))
      (SchedStep.timerFire _ 0 rfl))

end Gurk
